import Mathlib

set_option maxHeartbeats 1000000

/- Verification development for the weather-app single-page client
   (src/app/page.tsx).  The lookup workflow, the search-history store, the
   condition-clock effect and the history dropdown are embedded shallowly:
   network outcomes become an explicit environment value, React state writes
   become an event trace that is folded into a state record, and the two
   platform builtins the component leans on (JSON.parse / JSON.stringify and
   encodeURIComponent) are modelled as executable functions. -/

namespace WeatherApp

/-- Structural characters of the JSON grammar, spelled via code points. -/
def quoteChar : Char := Char.ofNat 34

/-- Backslash character, used by JSON escapes. -/
def backslashChar : Char := Char.ofNat 92

/-- Opening bracket of a JSON array. -/
def lbrackChar : Char := Char.ofNat 91

/-- Closing bracket of a JSON array. -/
def rbrackChar : Char := Char.ofNat 93

/-- Opening brace of a JSON object. -/
def lbraceChar : Char := Char.ofNat 123

/-- Closing brace of a JSON object. -/
def rbraceChar : Char := Char.ofNat 125

/-- Comma separator of JSON arrays and objects. -/
def commaChar : Char := Char.ofNat 44

/-- Colon separator of JSON object fields. -/
def colonChar : Char := Char.ofNat 58

/-- Forward slash, which JSON allows as the escape sequence backslash-slash. -/
def slashChar : Char := Char.ofNat 47

/-- JSON values as produced by JSON.parse.  Number lexemes are kept verbatim
because no behaviour of the component depends on a number's numeric value,
only on a parsed value being or not being a string / an array. -/
inductive JsValue where
  | null
  | bool (b : Bool)
  | num (lexeme : String)
  | str (s : String)
  | arr (items : List JsValue)
  | obj (fields : List (String × JsValue))

/-- JSON insignificant whitespace. -/
def isJsonWs (c : Char) : Bool :=
  c = ' ' || c = Char.ofNat 9 || c = Char.ofNat 10 || c = Char.ofNat 13

/-- Skip insignificant whitespace. -/
def skipWs (cs : List Char) : List Char := cs.dropWhile isJsonWs

/-- Value of one hexadecimal digit, for the backslash-u string escape. -/
def hexVal (c : Char) : Option Nat :=
  if c.isDigit then some (c.toNat - 48)
  else if 65 ≤ c.toNat && c.toNat ≤ 70 then some (c.toNat - 55)
  else if 97 ≤ c.toNat && c.toNat ≤ 102 then some (c.toNat - 87)
  else none

/-- Body of a JSON string literal, after the opening quote; returns the decoded
string and the remaining input.  Fuel bounds recursion; callers pass at least
the input length plus one. -/
def parseStringBody : Nat → List Char → List Char → Option (String × List Char)
  | 0, _, _ => none
  | _ + 1, [], _ => none
  | fuel + 1, c :: rest, acc =>
    if c = quoteChar then some (String.mk acc.reverse, rest)
    else if c = backslashChar then
      match rest with
      | [] => none
      | e :: rest2 =>
        if e = quoteChar then parseStringBody fuel rest2 (quoteChar :: acc)
        else if e = backslashChar then parseStringBody fuel rest2 (backslashChar :: acc)
        else if e = slashChar then parseStringBody fuel rest2 (slashChar :: acc)
        else if e = 'b' then parseStringBody fuel rest2 (Char.ofNat 8 :: acc)
        else if e = 'f' then parseStringBody fuel rest2 (Char.ofNat 12 :: acc)
        else if e = 'n' then parseStringBody fuel rest2 (Char.ofNat 10 :: acc)
        else if e = 'r' then parseStringBody fuel rest2 (Char.ofNat 13 :: acc)
        else if e = 't' then parseStringBody fuel rest2 (Char.ofNat 9 :: acc)
        else if e = 'u' then
          match rest2 with
          | h1 :: h2 :: h3 :: h4 :: rest3 =>
            match hexVal h1, hexVal h2, hexVal h3, hexVal h4 with
            | some n1, some n2, some n3, some n4 =>
              parseStringBody fuel rest3
                (Char.ofNat (n1 * 4096 + n2 * 256 + n3 * 16 + n4) :: acc)
            | _, _, _, _ => none
          | _ => none
        else none
    else if c.toNat < 32 then none
    else parseStringBody fuel rest (c :: acc)

/-- Optional fraction part of a JSON number; returns the consumed lexeme. -/
def parseFracPart (cs : List Char) : Option (List Char × List Char) :=
  match cs with
  | [] => some ([], [])
  | c :: rest =>
    if c = '.' then
      let ds := rest.takeWhile Char.isDigit
      if ds.isEmpty then none else some (c :: ds, rest.drop ds.length)
    else some ([], cs)

/-- Optional exponent part of a JSON number; returns the consumed lexeme. -/
def parseExpPart (cs : List Char) : Option (List Char × List Char) :=
  match cs with
  | [] => some ([], [])
  | c :: rest =>
    if c = 'e' || c = 'E' then
      let signAndRest :=
        match rest with
        | [] => (([] : List Char), ([] : List Char))
        | d :: r2 => if d = '+' || d = '-' then ([d], r2) else ([], rest)
      let ds := signAndRest.2.takeWhile Char.isDigit
      if ds.isEmpty then none
      else some (c :: (signAndRest.1 ++ ds), signAndRest.2.drop ds.length)
    else some ([], cs)

/-- JSON number, following the RFC 8259 grammar; the lexeme is kept verbatim. -/
def parseNumber (cs : List Char) : Option (JsValue × List Char) :=
  let signAndRest :=
    match cs with
    | [] => (([] : List Char), ([] : List Char))
    | c :: rest => if c = '-' then ([c], rest) else ([], cs)
  match signAndRest.2 with
  | [] => none
  | c :: rest =>
    if c = '0' then
      match parseFracPart rest with
      | none => none
      | some (frac, cs2) =>
        match parseExpPart cs2 with
        | none => none
        | some (ex, cs3) =>
          some (JsValue.num (String.mk (signAndRest.1 ++ [c] ++ frac ++ ex)), cs3)
    else if c.isDigit then
      let ds := rest.takeWhile Char.isDigit
      let cs1 := rest.drop ds.length
      match parseFracPart cs1 with
      | none => none
      | some (frac, cs2) =>
        match parseExpPart cs2 with
        | none => none
        | some (ex, cs3) =>
          some (JsValue.num (String.mk (signAndRest.1 ++ [c] ++ ds ++ frac ++ ex)), cs3)
    else none

mutual

/-- One JSON value, preceded by optional whitespace.  Fuel bounds the mutual
recursion; `jsonParse` passes an amount that dominates the input length. -/
def parseValue : Nat → List Char → Option (JsValue × List Char)
  | 0, _ => none
  | fuel + 1, cs =>
    match skipWs cs with
    | [] => none
    | c :: rest =>
      if c = quoteChar then
        match parseStringBody (rest.length + 1) rest [] with
        | some (s, r) => some (JsValue.str s, r)
        | none => none
      else if c = lbrackChar then
        match parseArrayItems fuel rest with
        | some (items, r) => some (JsValue.arr items, r)
        | none => none
      else if c = lbraceChar then
        match parseObjectFields fuel rest with
        | some (fields, r) => some (JsValue.obj fields, r)
        | none => none
      else if c = 't' then
        match rest with
        | 'r' :: 'u' :: 'e' :: r => some (JsValue.bool true, r)
        | _ => none
      else if c = 'f' then
        match rest with
        | 'a' :: 'l' :: 's' :: 'e' :: r => some (JsValue.bool false, r)
        | _ => none
      else if c = 'n' then
        match rest with
        | 'u' :: 'l' :: 'l' :: r => some (JsValue.null, r)
        | _ => none
      else parseNumber (c :: rest)

/-- Items of a JSON array, after the opening bracket. -/
def parseArrayItems : Nat → List Char → Option (List JsValue × List Char)
  | 0, _ => none
  | fuel + 1, cs =>
    match skipWs cs with
    | [] => none
    | c :: rest =>
      if c = rbrackChar then some ([], rest)
      else parseArrayRest fuel (c :: rest)

/-- Nonempty tail of a JSON array: a value followed by a comma or the closing
bracket. -/
def parseArrayRest : Nat → List Char → Option (List JsValue × List Char)
  | 0, _ => none
  | fuel + 1, cs =>
    match parseValue fuel cs with
    | none => none
    | some (v, cs1) =>
      match skipWs cs1 with
      | [] => none
      | c :: rest =>
        if c = rbrackChar then some ([v], rest)
        else if c = commaChar then
          match parseArrayRest fuel rest with
          | some (vs, cs2) => some (v :: vs, cs2)
          | none => none
        else none

/-- Fields of a JSON object, after the opening brace. -/
def parseObjectFields : Nat → List Char → Option (List (String × JsValue) × List Char)
  | 0, _ => none
  | fuel + 1, cs =>
    match skipWs cs with
    | [] => none
    | c :: rest =>
      if c = rbraceChar then some ([], rest)
      else parseObjectRest fuel (c :: rest)

/-- Nonempty tail of a JSON object: a string key, a colon, a value, then a
comma or the closing brace. -/
def parseObjectRest : Nat → List Char → Option (List (String × JsValue) × List Char)
  | 0, _ => none
  | fuel + 1, cs =>
    match skipWs cs with
    | [] => none
    | c :: rest =>
      if c = quoteChar then
        match parseStringBody (rest.length + 1) rest [] with
        | none => none
        | some (key, r1) =>
          match skipWs r1 with
          | [] => none
          | c2 :: r2 =>
            if c2 = colonChar then
              match parseValue fuel r2 with
              | none => none
              | some (v, r3) =>
                match skipWs r3 with
                | [] => none
                | c3 :: r4 =>
                  if c3 = rbraceChar then some ([(key, v)], r4)
                  else if c3 = commaChar then
                    match parseObjectRest fuel r4 with
                    | some (fs, r5) => some ((key, v) :: fs, r5)
                    | none => none
                  else none
            else none
      else none

end

/-- Model of JSON.parse: either a value (whole input consumed up to trailing
whitespace) or `none` where the builtin would throw a SyntaxError. -/
def jsonParse (s : String) : Option JsValue :=
  match parseValue (4 * s.length + 8) s.data with
  | some (v, rest) => if (skipWs rest).isEmpty then some v else none
  | none => none

/-- JSON escape of one character, as JSON.stringify performs it for strings. -/
def escapeJsonChar (c : Char) : List Char :=
  if c = quoteChar then [backslashChar, quoteChar]
  else if c = backslashChar then [backslashChar, backslashChar]
  else if c = Char.ofNat 8 then [backslashChar, 'b']
  else if c = Char.ofNat 12 then [backslashChar, 'f']
  else if c = Char.ofNat 10 then [backslashChar, 'n']
  else if c = Char.ofNat 13 then [backslashChar, 'r']
  else if c = Char.ofNat 9 then [backslashChar, 't']
  else if c.toNat < 32 then
    [backslashChar, 'u', '0', '0',
     (if c.toNat / 16 < 10 then Char.ofNat (48 + c.toNat / 16)
      else Char.ofNat (87 + c.toNat / 16)),
     (if c.toNat % 16 < 10 then Char.ofNat (48 + c.toNat % 16)
      else Char.ofNat (87 + c.toNat % 16))]
  else [c]

/-- Model of JSON.stringify applied to one string. -/
def stringifyString (s : String) : String :=
  String.mk (quoteChar :: s.data.foldr (fun c acc => escapeJsonChar c ++ acc) [quoteChar])

/-- Model of JSON.stringify applied to an array of strings, as the component
uses it to persist the search history. -/
def stringifyStringArray (l : List String) : String :=
  String.mk lbrackChar.toString.data ++ String.intercalate "," (l.map stringifyString)
    ++ String.mk rbrackChar.toString.data

/-- Characters encodeURIComponent leaves unescaped: ASCII alphanumerics and
the marks minus hyphen underscore period exclamation tilde asterisk apostrophe
parentheses. -/
def uriUnreserved (c : Char) : Bool :=
  c.isAlpha || c.isDigit || c = '-' || c = '_' || c = '.' || c = '!' || c = '~'
    || c = '*' || c = Char.ofNat 39 || c = '(' || c = ')'

/-- UTF-8 bytes of one code point. -/
def utf8Bytes (n : Nat) : List Nat :=
  if n < 128 then [n]
  else if n < 2048 then [192 + n / 64, 128 + n % 64]
  else if n < 65536 then [224 + n / 4096, 128 + n / 64 % 64, 128 + n % 64]
  else [240 + n / 262144, 128 + n / 4096 % 64, 128 + n / 64 % 64, 128 + n % 64]

/-- Uppercase hexadecimal digit, for percent escapes. -/
def hexDigitChar (n : Nat) : Char :=
  if n < 10 then Char.ofNat (48 + n) else Char.ofNat (55 + n)

/-- Percent escape of one byte. -/
def percentByte (b : Nat) : List Char :=
  [Char.ofNat 37, hexDigitChar (b / 16), hexDigitChar (b % 16)]

/-- Model of encodeURIComponent. -/
def encodeURIComponent (s : String) : String :=
  String.mk (s.data.foldr
    (fun c acc =>
      (if uriUnreserved c then [c] else (utf8Bytes c.toNat).foldr
        (fun b acc2 => percentByte b ++ acc2) []) ++ acc)
    [])

/-- Null-coalescing of the source: `a ?? b` keeps `a` whenever it is not
null/undefined, even when it is the empty string. -/
def coalesce {α : Type} : Option α → Option α → Option α
  | some a, _ => some a
  | none, b => b

/-- Resolved place, as the GeocodeResult type of page.tsx.  Coordinates are
modelled as integers: no claim depends on their fractional value. -/
structure GeocodeResult where
  name : String
  country : String
  latitude : Int
  longitude : Int
  timezone : Option String
deriving Repr, DecidableEq

/-- Parsed body of the geocoding response; `results` may be absent. -/
structure GeocodeData where
  results : Option (List GeocodeResult)
deriving Repr, DecidableEq

/-- The `current` object of the forecast response. -/
structure CurrentWeather where
  temperature_2m : Int
  wind_speed_10m : Int
  weather_code : Int
deriving Repr, DecidableEq

/-- Parsed body of the forecast response: the `current` object may be absent,
and a top-level `timezone` may be present. -/
structure ForecastData where
  current : Option CurrentWeather
  timezone : Option String
deriving Repr, DecidableEq

/-- Image reference inside a Wikipedia summary; `source` may be absent. -/
structure ImageRef where
  source : Option String
deriving Repr, DecidableEq

/-- The WikipediaSummary type of page.tsx. -/
structure WikipediaSummary where
  originalimage : Option ImageRef
  thumbnail : Option ImageRef
deriving Repr, DecidableEq

/-- The WeatherResponse type of page.tsx: the snapshot held in UI state. -/
structure WeatherResponse where
  location : String
  temperature : Int
  windSpeed : Int
  weatherDescription : String
  timezone : Option String
  imageUrl : Option String
  fallbackImageUrl : Option String
deriving Repr, DecidableEq

/-- Outcome of one awaited fetch-plus-json step: the step either throws
(network error or unparsable body) or yields a parsed value. -/
inductive FetchOutcome (α : Type) where
  | thrown
  | ok (data : α)
deriving Repr, DecidableEq

/-- Outcome of the best-effort Wikipedia lookup: thrown covers both a network
error and an unparsable body; otherwise the response carries its `ok` status
and, when consulted, a summary. -/
inductive WikiOutcome where
  | thrown
  | response (ok : Bool) (data : WikipediaSummary)
deriving Repr, DecidableEq

/-- Network environment of one submission: what each outbound call would
return if issued. -/
structure Env where
  geocode : FetchOutcome GeocodeData
  forecast : FetchOutcome ForecastData
  wiki : WikiOutcome
deriving Repr, DecidableEq

/-- The weatherCodeMap table of page.tsx. -/
def weatherCodeMap (code : Int) : Option String :=
  if code = 0 then some "Clear sky"
  else if code = 1 then some "Mainly clear"
  else if code = 2 then some "Partly cloudy"
  else if code = 3 then some "Overcast"
  else if code = 45 then some "Fog"
  else if code = 48 then some "Depositing rime fog"
  else if code = 51 then some "Light drizzle"
  else if code = 53 then some "Moderate drizzle"
  else if code = 55 then some "Dense drizzle"
  else if code = 61 then some "Slight rain"
  else if code = 63 then some "Moderate rain"
  else if code = 65 then some "Heavy rain"
  else if code = 71 then some "Slight snow"
  else if code = 73 then some "Moderate snow"
  else if code = 75 then some "Heavy snow"
  else if code = 80 then some "Rain showers"
  else if code = 81 then some "Moderate showers"
  else if code = 82 then some "Violent showers"
  else if code = 95 then some "Thunderstorm"
  else none

/-- Cap of the dropdown's simultaneously visible rows (page.tsx line 52). -/
def MAX_VISIBLE_HISTORY_ITEMS : Nat := 5

/-- Cap of the retained history (page.tsx line 53). -/
def MAX_STORED_HISTORY_ITEMS : Nat := 30

/-- The expression `geocodeData?.results?.[0]` of onSubmit. -/
def firstLocation (gd : GeocodeData) : Option GeocodeResult :=
  (gd.results.getD []).head?

/-- The deterministic fallback image URL computed by onSubmit from the
resolved place name and country. -/
def fallbackImageUrlFor (name country : String) : String :=
  "https://loremflickr.com/1600/900/"
    ++ encodeURIComponent (name ++ " " ++ country ++ " skyline")

/-- The image URL the inner try of onSubmit produces: null on a thrown fetch,
null on a non-success status, else the first of originalimage.source and
thumbnail.source that is present. -/
def wikiImageResult : WikiOutcome → Option String
  | WikiOutcome.thrown => none
  | WikiOutcome.response ok data =>
    if ok then
      coalesce (data.originalimage.bind fun i => i.source)
        (data.thumbnail.bind fun i => i.source)
    else none

/-- The nextResult object built by onSubmit on the success path. -/
def buildResult (location : GeocodeResult) (current : CurrentWeather)
    (forecastTimezone : Option String) (imageUrl : Option String) : WeatherResponse :=
  { location := location.name ++ ", " ++ location.country
  , temperature := current.temperature_2m
  , windSpeed := current.wind_speed_10m
  , weatherDescription := (weatherCodeMap current.weather_code).getD "Unknown"
  , timezone := coalesce location.timezone forecastTimezone
  , imageUrl := imageUrl
  , fallbackImageUrl := some (fallbackImageUrlFor location.name location.country) }

/-- Model of the trim method: strip leading and trailing whitespace. -/
def jsTrim (s : String) : String :=
  String.mk (((s.data.dropWhile Char.isWhitespace).reverse.dropWhile
    Char.isWhitespace).reverse)

/-- Model of the toLowerCase method: character-wise lowering (the component
only ever compares city names, for which the locale-independent mapping is
character-wise). -/
def jsToLowerCase (s : String) : String :=
  String.mk (s.data.map Char.toLower)

/-- The history update of onSubmit on the success path: push the cleaned query
to the front, drop case-insensitive duplicates, cap at 30. -/
def recordHistory (cleanCity : String) (searchHistory : List String) : List String :=
  (cleanCity :: searchHistory.filter
    fun item => jsToLowerCase item != jsToLowerCase cleanCity).take
    MAX_STORED_HISTORY_ITEMS

/-- State writes and outbound requests of one submission, in program order. -/
inductive Event where
  | setLoading (b : Bool)
  | setError (msg : String)
  | setResult (r : Option WeatherResponse)
  | setBgImage (url : String)
  | setHistory (items : List String)
  | writeStorage (value : String)
  | fetchGeocode (query : String)
  | fetchForecast (latitude longitude : Int)
  | fetchWiki (pageName : String)
deriving Repr, DecidableEq

/-- Body of the try block of onSubmit, with the catch applied: the events each
branch performs, given the environment. -/
def tryBlock (city : String) (searchHistory : List String) (env : Env) : List Event :=
  Event.fetchGeocode (jsTrim city) ::
  match env.geocode with
  | FetchOutcome.thrown => [Event.setError "Unable to connect. Please try again."]
  | FetchOutcome.ok geocodeData =>
    match firstLocation geocodeData with
    | none => [Event.setError "City not found."]
    | some location =>
      Event.fetchForecast location.latitude location.longitude ::
      match env.forecast with
      | FetchOutcome.thrown => [Event.setError "Unable to connect. Please try again."]
      | FetchOutcome.ok weatherData =>
        match weatherData.current with
        | none => [Event.setError "Weather unavailable."]
        | some current =>
          Event.fetchWiki location.name ::
          Event.setResult (some (buildResult location current weatherData.timezone
            (wikiImageResult env.wiki))) ::
          Event.setBgImage ((coalesce
            (buildResult location current weatherData.timezone
              (wikiImageResult env.wiki)).imageUrl
            (buildResult location current weatherData.timezone
              (wikiImageResult env.wiki)).fallbackImageUrl).getD "") ::
          (if jsTrim city = "" then []
           else
            [Event.setHistory (recordHistory (jsTrim city) searchHistory),
             Event.writeStorage
               (stringifyStringArray (recordHistory (jsTrim city) searchHistory))])

/-- The onSubmit workflow of page.tsx as its event trace: loading set, error
and result cleared, the try/catch body, then the finally clearing loading. -/
def onSubmit (city : String) (searchHistory : List String) (env : Env) : List Event :=
  (Event.setLoading true :: Event.setError "" :: Event.setResult none ::
    tryBlock city searchHistory env) ++ [Event.setLoading false]

/-- The UI state the workflow writes to. -/
structure UiState where
  city : String
  result : Option WeatherResponse
  error : String
  loading : Bool
  searchHistory : List String
  bgImageUrl : String
  storedHistory : Option String
deriving Repr, DecidableEq

/-- Effect of one event on the UI state; requests change no state. -/
def applyEvent (st : UiState) : Event → UiState
  | Event.setLoading b => { st with loading := b }
  | Event.setError msg => { st with error := msg }
  | Event.setResult r => { st with result := r }
  | Event.setBgImage url => { st with bgImageUrl := url }
  | Event.setHistory items => { st with searchHistory := items }
  | Event.writeStorage value => { st with storedHistory := some value }
  | Event.fetchGeocode _ => st
  | Event.fetchForecast _ _ => st
  | Event.fetchWiki _ => st

/-- Fold an event trace into the state. -/
def runTrace (st : UiState) (evts : List Event) : UiState :=
  evts.foldl applyEvent st

/-- Recognizer of forecast requests in a trace. -/
def isForecastRequest : Event → Bool
  | Event.fetchForecast _ _ => true
  | _ => false

/-- Recognizer of image (Wikipedia) requests in a trace. -/
def isWikiRequest : Event → Bool
  | Event.fetchWiki _ => true
  | _ => false

/-- Recognizer of loading-flag writes in a trace. -/
def isSetLoadingEvent : Event → Bool
  | Event.setLoading _ => true
  | _ => false

/-- Startup rehydration of the history (the load effect of page.tsx lines
131-141), as the list the React state holds afterwards: nothing on an absent
or empty stored value, empty again when JSON.parse throws, the first 30 raw
elements when the parse yields an array, and the untouched initial empty list
when it yields a non-array. -/
def loadedHistory (stored : Option String) : List JsValue :=
  match stored with
  | none => []
  | some s =>
    if s = "" then []
    else
      match jsonParse s with
      | none => []
      | some (JsValue.arr items) => items.take MAX_STORED_HISTORY_ITEMS
      | some _ => []

/-- String view of a loaded history: defined exactly when every element the
load installed is a string. -/
def stringItems? : List JsValue → Option (List String)
  | [] => some []
  | JsValue.str s :: rest => (stringItems? rest).map fun l => s :: l
  | _ => none

/-- The SearchHistory invariant of the spec: no two entries equal under
case-insensitive comparison, and at most 30 entries. -/
def histInv (h : List String) : Prop :=
  h.Pairwise (fun a b => jsToLowerCase a ≠ jsToLowerCase b)
    ∧ h.length ≤ MAX_STORED_HISTORY_ITEMS

instance (h : List String) : Decidable (histInv h) := by
  unfold histInv; infer_instance

/-- State of the condition-clock effect: the timezone dependency last
delivered, the running interval tagged with the timezone its closure formats,
and the displayed string. -/
structure ClockState where
  tz : Option String
  timer : Option String
  cityTime : String
deriving Repr, DecidableEq

/-- Stimuli of the clock effect: a change of `result?.timezone` (React runs
the previous cleanup, then the effect) carrying the wall-clock seconds in the
zone, or an interval tick. -/
inductive ClockEvent where
  | setTimezone (tz : Option String) (localSeconds : Nat)
  | tick (localSeconds : Nat)
deriving Repr, DecidableEq

/-- Period of the clock interval (setInterval's 1000 ms). -/
def CLOCK_INTERVAL_MS : Nat := 1000

/-- Truthiness of `result?.timezone`: set exactly when present and nonempty. -/
def tzIsSet : Option String → Bool
  | some t => t != ""
  | none => false

/-- Two-digit rendering of a field. -/
def twoDigits (n : Nat) : String :=
  if n < 10 then "0" ++ toString n else toString n

/-- The en-US 12-hour hh:mm:ss formatter the clock effect builds. -/
def formatTime12 (localSeconds : Nat) : String :=
  let s := localSeconds % 86400
  let h24 := s / 3600
  let h12 := if h24 % 12 = 0 then 12 else h24 % 12
  twoDigits h12 ++ ":" ++ twoDigits (s % 3600 / 60) ++ ":" ++ twoDigits (s % 60)
    ++ " " ++ (if h24 < 12 then "AM" else "PM")

/-- One step of the clock effect: a timezone change clears the previous
interval and display and, when the new timezone is truthy, computes the time
immediately and starts an interval; a tick refreshes the display only while an
interval is running. -/
def clockStep (s : ClockState) : ClockEvent → ClockState
  | ClockEvent.setTimezone newTz now =>
    match newTz with
    | none => { tz := none, timer := none, cityTime := "" }
    | some t =>
      if t = "" then { tz := some t, timer := none, cityTime := "" }
      else { tz := some t, timer := some t, cityTime := formatTime12 now }
  | ClockEvent.tick now =>
    match s.timer with
    | some _ => { s with cityTime := formatTime12 now }
    | none => s

/-- Clock state on mount: no snapshot, no interval, empty display. -/
def clockInit : ClockState :=
  { tz := none, timer := none, cityTime := "" }

/-- Clock state reached from mount by a stimulus sequence. -/
def clockRun (evs : List ClockEvent) : ClockState :=
  evs.foldl clockStep clockInit

/-- Safety property of the clock: a running interval is tagged with the
current, nonempty timezone (no stale and no unset ticking), and an unset
timezone means no interval and an empty display. -/
def clockInv (s : ClockState) : Prop :=
  (∀ t, s.timer = some t → s.tz = some t ∧ t ≠ "") ∧
  (tzIsSet s.tz = false → s.timer = none ∧ s.cityTime = "")

/-- Row height in pixels the dropdown's maxHeight arithmetic assumes. -/
def HISTORY_ROW_HEIGHT_PX : Nat := 40

/-- The dropdown's maxHeight style (page.tsx line 375). -/
def dropdownMaxHeightPx : Nat := MAX_VISIBLE_HISTORY_ITEMS * HISTORY_ROW_HEIGHT_PX

/-- Entries the dropdown renders: all retained entries, when focused and
nonempty (page.tsx lines 372-388). -/
def renderedHistoryItems (showHistory : Bool) (searchHistory : List String) : List String :=
  if showHistory && decide (0 < searchHistory.length) then searchHistory else []

/-- Rows simultaneously visible in the scroll viewport: the rendered rows,
clipped by the maxHeight. -/
def fullyVisibleHistoryRows (renderedCount : Nat) : Nat :=
  min renderedCount (dropdownMaxHeightPx / HISTORY_ROW_HEIGHT_PX)

/-- The onMouseDown handler of a dropdown entry: it only writes the input
field, and issues no events (in particular no submission). -/
def selectHistoryItem (st : UiState) (item : String) : UiState × List Event :=
  ({ st with city := item }, [])

/-- The fallback image URL is never the empty string: it starts with the fixed
placeholder-service prefix. -/
theorem fallbackImageUrlFor_ne_empty (n c : String) : fallbackImageUrlFor n c ≠ "" := by
  intro hEq
  have hlen := congrArg String.length hEq
  rw [fallbackImageUrlFor, String.length_append] at hlen
  have h33 : ("https://loremflickr.com/1600/900/").length = 33 := by decide
  rw [h33] at hlen
  simp at hlen

/-- The try/catch body never writes the loading flag; only the surrounding
set and finally do. -/
theorem tryBlock_no_setLoading (city : String) (h : List String) (env : Env) :
    (tryBlock city h env).filter isSetLoadingEvent = [] := by
  unfold tryBlock
  rcases env with ⟨g, f, w⟩
  cases g with
  | thrown => simp [isSetLoadingEvent]
  | ok gd =>
    cases hfl : firstLocation gd with
    | none => simp [hfl, isSetLoadingEvent]
    | some loc =>
      cases f with
      | thrown => simp [hfl, isSetLoadingEvent]
      | ok wd =>
        cases hc : wd.current with
        | none => simp [hfl, hc, isSetLoadingEvent]
        | some cur =>
          by_cases hcl : jsTrim city = "" <;> simp [hfl, hc, hcl, isSetLoadingEvent]

/-- C1: a submission whose geocode lookup yields zero results ends with the
error message exactly City not found., a null result snapshot, and no
forecast and no image request in its trace. -/
theorem geocode_zero_results_yields_city_not_found
    (city : String) (h : List String) (env : Env) (st : UiState) (gd : GeocodeData)
    (hg : env.geocode = FetchOutcome.ok gd)
    (hz : firstLocation gd = none) :
    (runTrace st (onSubmit city h env)).error = "City not found." ∧
    (runTrace st (onSubmit city h env)).result = none ∧
    ∀ e ∈ onSubmit city h env, isForecastRequest e = false ∧ isWikiRequest e = false := by
  have htr : onSubmit city h env =
      [Event.setLoading true, Event.setError "", Event.setResult none,
       Event.fetchGeocode (jsTrim city), Event.setError "City not found.",
       Event.setLoading false] := by
    simp [onSubmit, tryBlock, hg, hz]
  rw [htr]
  refine ⟨?_, ?_, ?_⟩
  · simp [runTrace, applyEvent]
  · simp [runTrace, applyEvent]
  · intro e he
    simp only [List.mem_cons, List.not_mem_nil, or_false] at he
    rcases he with rfl | rfl | rfl | rfl | rfl | rfl <;>
      simp [isForecastRequest, isWikiRequest]

/-- Witness for C1: the concrete query of the spec against an environment
whose geocode response holds an empty result list. -/
theorem geocode_zero_results_yields_city_not_found_witness :
    firstLocation { results := some [] } = none ∧
    (runTrace ⟨"", none, "", false, [], "", none⟩
      (onSubmit "Zzqxnotacity" []
        { geocode := FetchOutcome.ok { results := some [] },
          forecast := FetchOutcome.thrown, wiki := WikiOutcome.thrown })).error
      = "City not found." :=
  ⟨rfl,
   (geocode_zero_results_yields_city_not_found "Zzqxnotacity" []
      { geocode := FetchOutcome.ok { results := some [] },
        forecast := FetchOutcome.thrown, wiki := WikiOutcome.thrown }
      ⟨"", none, "", false, [], "", none⟩ { results := some [] } rfl rfl).1⟩

/-- C2: a submission whose geocode succeeds but whose forecast response lacks
a current object ends with the error message exactly Weather unavailable. and
a null result snapshot. -/
theorem missing_current_yields_weather_unavailable
    (city : String) (h : List String) (env : Env) (st : UiState)
    (gd : GeocodeData) (loc : GeocodeResult) (wd : ForecastData)
    (hg : env.geocode = FetchOutcome.ok gd)
    (hl : firstLocation gd = some loc)
    (hf : env.forecast = FetchOutcome.ok wd)
    (hc : wd.current = none) :
    (runTrace st (onSubmit city h env)).error = "Weather unavailable." ∧
    (runTrace st (onSubmit city h env)).result = none := by
  have htr : onSubmit city h env =
      [Event.setLoading true, Event.setError "", Event.setResult none,
       Event.fetchGeocode (jsTrim city),
       Event.fetchForecast loc.latitude loc.longitude,
       Event.setError "Weather unavailable.", Event.setLoading false] := by
    simp [onSubmit, tryBlock, hg, hl, hf, hc]
  rw [htr]
  exact ⟨by simp [runTrace, applyEvent], by simp [runTrace, applyEvent]⟩

/-- Witness for C2 at a concrete resolved place and a forecast body without
current conditions. -/
theorem missing_current_yields_weather_unavailable_witness :
    (runTrace ⟨"", none, "", false, [], "", none⟩
      (onSubmit "Paris" []
        { geocode := FetchOutcome.ok
            { results := some [⟨"Paris", "France", 48, 2, some "Europe/Paris"⟩] },
          forecast := FetchOutcome.ok { current := none, timezone := some "Europe/Paris" },
          wiki := WikiOutcome.thrown })).error = "Weather unavailable." :=
  (missing_current_yields_weather_unavailable "Paris" []
    { geocode := FetchOutcome.ok
        { results := some [⟨"Paris", "France", 48, 2, some "Europe/Paris"⟩] },
      forecast := FetchOutcome.ok { current := none, timezone := some "Europe/Paris" },
      wiki := WikiOutcome.thrown }
    ⟨"", none, "", false, [], "", none⟩
    { results := some [⟨"Paris", "France", 48, 2, some "Europe/Paris"⟩] }
    ⟨"Paris", "France", 48, 2, some "Europe/Paris"⟩
    { current := none, timezone := some "Europe/Paris" } rfl rfl rfl rfl).1

/-- C3: when geocode and forecast succeed, any failing image lookup (thrown,
non-success status, or missing image fields — exactly the cases in which the
inner try yields null) leaves the workflow uninterrupted: the final error is
empty, a snapshot is set, its imageUrl is null, and its fallbackImageUrl is
the nonempty deterministic function of the resolved name and country. -/
theorem image_failure_swallowed_with_fallback
    (city : String) (h : List String) (env : Env) (st : UiState)
    (gd : GeocodeData) (loc : GeocodeResult) (wd : ForecastData) (cur : CurrentWeather)
    (hg : env.geocode = FetchOutcome.ok gd) (hl : firstLocation gd = some loc)
    (hf : env.forecast = FetchOutcome.ok wd) (hc : wd.current = some cur)
    (hw : wikiImageResult env.wiki = none) :
    (runTrace st (onSubmit city h env)).error = "" ∧
    ∃ r, (runTrace st (onSubmit city h env)).result = some r ∧
      r.imageUrl = none ∧
      r.fallbackImageUrl = some (fallbackImageUrlFor loc.name loc.country) ∧
      fallbackImageUrlFor loc.name loc.country ≠ "" := by
  by_cases hcl : jsTrim city = "" <;>
    refine ⟨?_, buildResult loc cur wd.timezone none, ?_, ?_, ?_,
      fallbackImageUrlFor_ne_empty _ _⟩ <;>
    simp [onSubmit, tryBlock, hg, hl, hf, hc, hw, hcl, runTrace, applyEvent, buildResult]

/-- Witness for C3: a Wikipedia response with success status but no image
fields, for a concrete successful search. -/
theorem image_failure_swallowed_with_fallback_witness :
    wikiImageResult (WikiOutcome.response true ⟨none, none⟩) = none ∧
    (runTrace ⟨"", none, "", false, [], "", none⟩
      (onSubmit "Paris" []
        { geocode := FetchOutcome.ok
            { results := some [⟨"Paris", "France", 48, 2, some "Europe/Paris"⟩] },
          forecast := FetchOutcome.ok
            { current := some ⟨21, 10, 0⟩, timezone := some "Europe/Paris" },
          wiki := WikiOutcome.response true ⟨none, none⟩ })).error = "" :=
  ⟨rfl,
   (image_failure_swallowed_with_fallback "Paris" []
      { geocode := FetchOutcome.ok
          { results := some [⟨"Paris", "France", 48, 2, some "Europe/Paris"⟩] },
        forecast := FetchOutcome.ok
          { current := some ⟨21, 10, 0⟩, timezone := some "Europe/Paris" },
        wiki := WikiOutcome.response true ⟨none, none⟩ }
      ⟨"", none, "", false, [], "", none⟩
      { results := some [⟨"Paris", "France", 48, 2, some "Europe/Paris"⟩] }
      ⟨"Paris", "France", 48, 2, some "Europe/Paris"⟩
      { current := some ⟨21, 10, 0⟩, timezone := some "Europe/Paris" }
      ⟨21, 10, 0⟩ rfl rfl rfl rfl rfl).1⟩

/-- C4: for every submission, in every environment, the trace opens by setting
the loading flag true, closes by setting it false, and contains no other
loading writes — so the flag stays true across the three steps and is cleared
exactly once on every exit path. -/
theorem loading_flag_set_once_cleared_once_every_path
    (city : String) (h : List String) (env : Env) :
    (onSubmit city h env).head? = some (Event.setLoading true) ∧
    (onSubmit city h env).getLast? = some (Event.setLoading false) ∧
    (onSubmit city h env).filter isSetLoadingEvent
      = [Event.setLoading true, Event.setLoading false] := by
  refine ⟨by simp [onSubmit], ?_, ?_⟩
  · rw [onSubmit]
    exact List.getLast?_concat _
  · rw [onSubmit, List.filter_append]
    simp [List.filter_cons, isSetLoadingEvent, tryBlock_no_setLoading]

/-- Head of a recorded history is the pushed clean query. -/
theorem recordHistory_head (c : String) (h : List String) :
    (recordHistory c h).head? = some c := rfl

/-- A recorded history respects the 30-entry cap. -/
theorem recordHistory_length (c : String) (h : List String) :
    (recordHistory c h).length ≤ MAX_STORED_HISTORY_ITEMS :=
  List.length_take_le _ _

/-- Every element behind the head of a recorded history survived the
case-insensitive dedup filter. -/
theorem recordHistory_tail_lower_ne (c x : String) (h : List String)
    (hx : x ∈ (recordHistory c h).tail) : jsToLowerCase x ≠ jsToLowerCase c := by
  have htl : (recordHistory c h).tail
      = (h.filter fun item => jsToLowerCase item != jsToLowerCase c).take 29 := rfl
  rw [htl] at hx
  have hx2 := List.take_subset _ _ hx
  have := (List.mem_filter.mp hx2).2
  simpa using this

/-- C5: on a successful search (nonempty trimmed query, per the Query data
model), the final history starts with the trimmed query, no other entry
matches it case-insensitively, the history is capped at 30 and its JSON
serialization is written to storage; on every failure path both the history
and the stored value are untouched. -/
theorem success_updates_history_failure_preserves_it
    (city : String) (env : Env) (st : UiState)
    (hne : jsTrim city ≠ "") :
    ((∀ gd loc wd cur, env.geocode = FetchOutcome.ok gd → firstLocation gd = some loc →
      env.forecast = FetchOutcome.ok wd → wd.current = some cur →
      ((runTrace st (onSubmit city st.searchHistory env)).searchHistory.head?
          = some (jsTrim city) ∧
       (∀ x ∈ (runTrace st (onSubmit city st.searchHistory env)).searchHistory.tail,
         jsToLowerCase x ≠ jsToLowerCase (jsTrim city)) ∧
       (runTrace st (onSubmit city st.searchHistory env)).searchHistory.length
          ≤ MAX_STORED_HISTORY_ITEMS ∧
       (runTrace st (onSubmit city st.searchHistory env)).storedHistory
          = some (stringifyStringArray
              (runTrace st (onSubmit city st.searchHistory env)).searchHistory))) ∧
    ((env.geocode = FetchOutcome.thrown ∨
      (∃ gd, env.geocode = FetchOutcome.ok gd ∧ firstLocation gd = none) ∨
      env.forecast = FetchOutcome.thrown ∨
      (∃ wd, env.forecast = FetchOutcome.ok wd ∧ wd.current = none)) →
      (runTrace st (onSubmit city st.searchHistory env)).searchHistory = st.searchHistory ∧
      (runTrace st (onSubmit city st.searchHistory env)).storedHistory
        = st.storedHistory)) := by
  constructor
  · intro gd loc wd cur hg hl hf hc
    have hfin : (runTrace st (onSubmit city st.searchHistory env)).searchHistory
        = recordHistory (jsTrim city) st.searchHistory := by
      simp [onSubmit, tryBlock, hg, hl, hf, hc, hne, runTrace, applyEvent]
    have hstore : (runTrace st (onSubmit city st.searchHistory env)).storedHistory
        = some (stringifyStringArray (recordHistory (jsTrim city) st.searchHistory)) := by
      simp [onSubmit, tryBlock, hg, hl, hf, hc, hne, runTrace, applyEvent]
    rw [hfin, hstore]
    exact ⟨recordHistory_head _ _,
      fun x hx => recordHistory_tail_lower_ne _ _ _ hx,
      recordHistory_length _ _, rfl⟩
  · rcases env with ⟨g, f, w⟩
    rintro (rfl | ⟨gd, rfl, hfl⟩ | rfl | ⟨wd, rfl, hcur⟩)
    · constructor <;> simp [onSubmit, tryBlock, runTrace, applyEvent]
    · constructor <;> simp [onSubmit, tryBlock, hfl, runTrace, applyEvent]
    · cases g with
      | thrown => constructor <;> simp [onSubmit, tryBlock, runTrace, applyEvent]
      | ok gd =>
        cases hfl : firstLocation gd with
        | none => constructor <;> simp [onSubmit, tryBlock, hfl, runTrace, applyEvent]
        | some loc => constructor <;> simp [onSubmit, tryBlock, hfl, runTrace, applyEvent]
    · cases g with
      | thrown => constructor <;> simp [onSubmit, tryBlock, runTrace, applyEvent]
      | ok gd =>
        cases hfl : firstLocation gd with
        | none => constructor <;> simp [onSubmit, tryBlock, hfl, runTrace, applyEvent]
        | some loc =>
          constructor <;> simp [onSubmit, tryBlock, hfl, hcur, runTrace, applyEvent]

/-- Witness for C5 at a concrete successful search over a one-entry prior
history. -/
theorem success_updates_history_failure_preserves_it_witness :
    jsTrim "Paris" ≠ "" ∧
    (runTrace ⟨"Paris", none, "", false, ["london"], "", none⟩
      (onSubmit "Paris"
        (⟨"Paris", none, "", false, ["london"], "", none⟩ : UiState).searchHistory
        { geocode := FetchOutcome.ok
            { results := some [⟨"Paris", "France", 48, 2, some "Europe/Paris"⟩] },
          forecast := FetchOutcome.ok
            { current := some ⟨21, 10, 0⟩, timezone := some "Europe/Paris" },
          wiki := WikiOutcome.thrown })).searchHistory.head? = some "Paris" :=
  ⟨by decide,
   ((success_updates_history_failure_preserves_it "Paris"
      { geocode := FetchOutcome.ok
          { results := some [⟨"Paris", "France", 48, 2, some "Europe/Paris"⟩] },
        forecast := FetchOutcome.ok
          { current := some ⟨21, 10, 0⟩, timezone := some "Europe/Paris" },
        wiki := WikiOutcome.thrown }
      ⟨"Paris", none, "", false, ["london"], "", none⟩ (by decide)).1
      { results := some [⟨"Paris", "France", 48, 2, some "Europe/Paris"⟩] }
      ⟨"Paris", "France", 48, 2, some "Europe/Paris"⟩
      { current := some ⟨21, 10, 0⟩, timezone := some "Europe/Paris" }
      ⟨21, 10, 0⟩ rfl rfl rfl rfl).1⟩

/-- A setHistory event in the try body carries exactly the recorded history,
and only occurs for a nonempty clean query. -/
theorem setHistory_mem_tryBlock (city : String) (h : List String) (env : Env)
    (items : List String)
    (hmem : Event.setHistory items ∈ tryBlock city h env) :
    items = recordHistory (jsTrim city) h ∧ jsTrim city ≠ "" := by
  unfold tryBlock at hmem
  rcases env with ⟨g, f, w⟩
  cases g with
  | thrown => simp at hmem
  | ok gd =>
    cases hfl : firstLocation gd with
    | none => simp [hfl] at hmem
    | some loc =>
      cases f with
      | thrown => simp [hfl] at hmem
      | ok wd =>
        cases hc : wd.current with
        | none => simp [hfl, hc] at hmem
        | some cur =>
          by_cases hcl : jsTrim city = ""
          · simp [hfl, hc, hcl] at hmem
          · simp [hfl, hc, hcl] at hmem
            exact ⟨hmem, hcl⟩

/-- A setHistory event anywhere in a submission's trace carries exactly the
recorded history, and only occurs for a nonempty clean query. -/
theorem setHistory_mem_onSubmit (city : String) (h : List String) (env : Env)
    (items : List String)
    (hmem : Event.setHistory items ∈ onSubmit city h env) :
    items = recordHistory (jsTrim city) h ∧ jsTrim city ≠ "" := by
  unfold onSubmit at hmem
  simp only [List.mem_append, List.mem_cons, List.not_mem_nil, or_false] at hmem
  rcases hmem with (h1 | h1 | h1 | h1) | h1
  · exact absurd h1 (by simp)
  · exact absurd h1 (by simp)
  · exact absurd h1 (by simp)
  · exact setHistory_mem_tryBlock city h env items h1
  · exact absurd h1 (by simp)

/-- C10: a submission whose input trims to the empty string still issues its
geocode request, for the empty query, yet never records history; and any
history write of any submission pushes exactly the nonempty trimmed query. -/
theorem empty_query_skips_history_entries_nonempty
    (city : String) (env : Env) (st : UiState) (hcl : jsTrim city = "") :
    (Event.fetchGeocode "" ∈ onSubmit city st.searchHistory env ∧
     (∀ items, Event.setHistory items ∉ onSubmit city st.searchHistory env)) ∧
    (∀ city2 h2 env2 items, Event.setHistory items ∈ onSubmit city2 h2 env2 →
      items.head? = some (jsTrim city2) ∧ jsTrim city2 ≠ "") := by
  refine ⟨⟨?_, ?_⟩, ?_⟩
  · rw [← hcl]
    simp [onSubmit, tryBlock]
  · intro items hmem
    exact absurd hcl (setHistory_mem_onSubmit city st.searchHistory env items hmem).2
  · intro city2 h2 env2 items hmem
    obtain ⟨rfl, hne⟩ := setHistory_mem_onSubmit city2 h2 env2 items hmem
    exact ⟨recordHistory_head _ _, hne⟩

/-- Witness for C10: a whitespace-only input against an arbitrary concrete
environment. -/
theorem empty_query_skips_history_entries_nonempty_witness :
    jsTrim "   " = "" ∧
    Event.fetchGeocode "" ∈ onSubmit "   "
      (⟨"   ", none, "", false, ["london"], "", none⟩ : UiState).searchHistory
      { geocode := FetchOutcome.ok { results := some [] },
        forecast := FetchOutcome.thrown, wiki := WikiOutcome.thrown } :=
  ⟨rfl,
   ((empty_query_skips_history_entries_nonempty "   "
      { geocode := FetchOutcome.ok { results := some [] },
        forecast := FetchOutcome.thrown, wiki := WikiOutcome.thrown }
      ⟨"   ", none, "", false, ["london"], "", none⟩ rfl).1).1⟩

/-- String view of a truncated loaded list equals the truncated string view. -/
theorem stringItems_take (items : List JsValue) (l : List String) (n : Nat)
    (hs : stringItems? items = some l) :
    stringItems? (items.take n) = some (l.take n) := by
  induction items generalizing l n with
  | nil =>
    simp [stringItems?] at hs
    subst hs
    simp [stringItems?]
  | cons x rest ih =>
    cases x with
    | str s =>
      simp only [stringItems?] at hs
      cases hrest : stringItems? rest with
      | none => rw [hrest] at hs; simp at hs
      | some l2 =>
        rw [hrest] at hs
        simp at hs
        subst hs
        cases n with
        | zero => simp [stringItems?]
        | succ m =>
          simp only [List.take_succ_cons, stringItems?]
          rw [ih l2 m hrest]
          rfl
    | null => simp [stringItems?] at hs
    | bool b => simp [stringItems?] at hs
    | num q => simp [stringItems?] at hs
    | arr a => simp [stringItems?] at hs
    | obj o => simp [stringItems?] at hs

/-- Counterexample to C6 as stated: rehydration from the persisted value
whose array holds a and capital A installs exactly those two entries, and the
resulting history violates the case-insensitive no-duplicate invariant —the
load effect truncates but never deduplicates. -/
theorem rehydration_can_violate_history_invariant :
    stringItems? (loadedHistory (some "[\"a\",\"A\"]")) = some ["a", "A"] ∧
    ¬ histInv ["a", "A"] :=
  ⟨rfl, by decide⟩

/-- C6 amended: recording preserves the full invariant from any invariant
history and enforces the cap unconditionally; rehydration enforces only the
cap unconditionally, and yields an invariant history exactly when the
persisted array itself is duplicate-free under case-insensitive comparison. -/
theorem history_invariant_preservation_amended :
    (∀ c h, histInv h → histInv (recordHistory c h)) ∧
    (∀ c h, (recordHistory c h).length ≤ MAX_STORED_HISTORY_ITEMS) ∧
    (∀ stored, (loadedHistory stored).length ≤ MAX_STORED_HISTORY_ITEMS) ∧
    (∀ s items l, jsonParse s = some (JsValue.arr items) →
      stringItems? items = some l →
      l.Pairwise (fun a b => jsToLowerCase a ≠ jsToLowerCase b) →
      stringItems? (loadedHistory (some s)) = some (l.take MAX_STORED_HISTORY_ITEMS) ∧
      histInv (l.take MAX_STORED_HISTORY_ITEMS)) := by
  refine ⟨?_, fun c h => List.length_take_le _ _, ?_, ?_⟩
  · rintro c h ⟨hp, hlen⟩
    constructor
    · apply List.Pairwise.sublist (List.take_sublist _ _)
      apply List.pairwise_cons.mpr
      constructor
      · intro b hb
        have := (List.mem_filter.mp hb).2
        simp at this
        exact fun hEq => this hEq.symm
      · exact List.Pairwise.sublist (List.filter_sublist _) hp
    · exact List.length_take_le _ _
  · intro stored
    rcases stored with _ | s
    · simp [loadedHistory]
    · by_cases hs : s = ""
      · simp [loadedHistory, hs]
      · cases hp : jsonParse s with
        | none => simp [loadedHistory, hs, hp]
        | some v =>
          cases v with
          | arr items =>
            simp only [loadedHistory, hs, hp, if_neg hs]
            exact List.length_take_le _ _
          | null => simp [loadedHistory, hs, hp]
          | bool b => simp [loadedHistory, hs, hp]
          | num q => simp [loadedHistory, hs, hp]
          | str q => simp [loadedHistory, hs, hp]
          | obj o => simp [loadedHistory, hs, hp]
  · intro s items l hp hs hpl
    have hsne : s ≠ "" := by
      intro h
      rw [h] at hp
      exact Option.noConfusion hp
    have hload : loadedHistory (some s) = items.take MAX_STORED_HISTORY_ITEMS := by
      simp [loadedHistory, hsne, hp]
    rw [hload, stringItems_take items l MAX_STORED_HISTORY_ITEMS hs]
    refine ⟨rfl, ?_, List.length_take_le _ _⟩
    exact List.Pairwise.sublist (List.take_sublist _ _) hpl

/-- Witness for the amended C6 at a concrete record over an invariant
history. -/
theorem history_invariant_preservation_amended_witness :
    histInv ["london"] ∧ histInv (recordHistory "Paris" ["london"]) :=
  ⟨by decide, history_invariant_preservation_amended.1 "Paris" ["london"] (by decide)⟩

/-- Counterexample to C7 as stated: the persisted value whose array holds the
numbers one and two is malformed for the documented array-of-strings format
(its elements are not strings), yet the load does not yield the empty
sequence — it installs the two non-string elements verbatim. -/
theorem malformed_array_survives_history_load :
    stringItems? (loadedHistory (some "[1,2]")) = none ∧
    loadedHistory (some "[1,2]") ≠ [] := by
  refine ⟨rfl, ?_⟩
  have h2 : loadedHistory (some "[1,2]") = [JsValue.num "1", JsValue.num "2"] := rfl
  rw [h2]
  simp

/-- C7 amended: a persisted value that is absent, empty, unparsable as JSON,
or parses to a non-array loads as the empty history (and the load, a total
function, never throws); only values parsing to arrays escape the reset. -/
theorem absent_or_unparsable_history_loads_empty (stored : Option String)
    (hmal : stored = none ∨ stored = some "" ∨
      (∃ s, stored = some s ∧ jsonParse s = none) ∨
      (∃ s v, stored = some s ∧ jsonParse s = some v ∧
        ∀ items, v ≠ JsValue.arr items)) :
    loadedHistory stored = [] := by
  rcases hmal with rfl | rfl | ⟨s, rfl, hp⟩ | ⟨s, v, rfl, hp, hv⟩
  · rfl
  · rfl
  · by_cases hs : s = "" <;> simp [loadedHistory, hs, hp]
  · by_cases hs : s = ""
    · simp [loadedHistory, hs]
    · cases v with
      | arr items => exact absurd rfl (hv items)
      | null => simp [loadedHistory, hs, hp]
      | bool b => simp [loadedHistory, hs, hp]
      | num q => simp [loadedHistory, hs, hp]
      | str q => simp [loadedHistory, hs, hp]
      | obj o => simp [loadedHistory, hs, hp]

/-- Witness for the amended C7 at a concrete unparsable stored value (a lone
opening brace). -/
theorem absent_or_unparsable_history_loads_empty_witness :
    jsonParse "\x7b" = none ∧ loadedHistory (some "\x7b") = [] :=
  ⟨rfl,
   absent_or_unparsable_history_loads_empty (some "\x7b")
     (Or.inr (Or.inr (Or.inl ⟨"\x7b", rfl, rfl⟩)))⟩

/-- C8: the dropdown viewport, whose maxHeight is five rows, shows at most
five entries at a time while rendering every retained entry once focused and
nonempty; and selecting an entry writes only the input field, triggering no
events and leaving result, error, loading and history untouched. -/
theorem dropdown_bounds_and_selection_fills_input
    (sh : Bool) (hist : List String) (x : String) (rest : List String)
    (st : UiState) (item : String) :
    fullyVisibleHistoryRows (renderedHistoryItems sh hist).length
      ≤ MAX_VISIBLE_HISTORY_ITEMS ∧
    renderedHistoryItems true (x :: rest) = x :: rest ∧
    (selectHistoryItem st item).1.city = item ∧
    (selectHistoryItem st item).2 = [] ∧
    (selectHistoryItem st item).1.result = st.result ∧
    (selectHistoryItem st item).1.error = st.error ∧
    (selectHistoryItem st item).1.loading = st.loading ∧
    (selectHistoryItem st item).1.searchHistory = st.searchHistory := by
  refine ⟨?_, by simp [renderedHistoryItems], rfl, rfl, rfl, rfl, rfl, rfl⟩
  exact Nat.min_le_right _ _

/-- One clock stimulus preserves the clock safety property. -/
theorem clockStep_preserves (s : ClockState) (e : ClockEvent)
    (hs : clockInv s) : clockInv (clockStep s e) := by
  rcases e with ⟨tz, now⟩ | now
  · cases tz with
    | none =>
      constructor
      · intro t ht
        simp [clockStep] at ht
      · intro _
        exact ⟨rfl, rfl⟩
    | some t =>
      by_cases ht : t = ""
      · subst ht
        constructor
        · intro t' ht'
          simp [clockStep] at ht'
        · intro _
          exact ⟨by simp [clockStep], by simp [clockStep]⟩
      · constructor
        · intro t' ht'
          simp [clockStep, ht] at ht'
          subst ht'
          exact ⟨by simp [clockStep, ht], ht⟩
        · intro hset
          simp [clockStep, ht, tzIsSet] at hset
  · cases htm : s.timer with
    | none =>
      have heq : clockStep s (ClockEvent.tick now) = s := by
        simp [clockStep, htm]
      rw [heq]
      exact hs
    | some t =>
      obtain ⟨h1, h2⟩ := hs
      obtain ⟨htz, htne⟩ := h1 t htm
      constructor
      · intro t' ht'
        have hsome : s.timer = some t' := by simpa [clockStep, htm] using ht'
        rw [htm] at hsome
        injection hsome with hteq
        subst hteq
        exact ⟨by simp [clockStep, htm, htz], htne⟩
      · intro hset
        have htzeq : (clockStep s (ClockEvent.tick now)).tz = s.tz := by
          simp [clockStep, htm]
        rw [htzeq, htz] at hset
        simp [tzIsSet] at hset
        exact absurd hset htne

/-- Every stimulus sequence preserves the clock safety property. -/
theorem clockRun_preserves (evs : List ClockEvent) :
    ∀ s, clockInv s → clockInv (evs.foldl clockStep s) := by
  induction evs with
  | nil => intro s hs; exact hs
  | cons e rest ih => intro s hs; exact ih _ (clockStep_preserves s e hs)

/-- The mount state satisfies the clock safety property. -/
theorem clockInit_inv : clockInv clockInit := by
  constructor
  · intro t ht
    simp [clockInit] at ht
  · intro _
    exact ⟨rfl, rfl⟩

/-- C9: in every reachable clock state a running interval carries exactly the
current nonempty timezone and an unset timezone means no interval and a
cleared display; setting a nonempty timezone computes the display
immediately and starts the interval, each tick recomputes the display, and
unsetting (or emptying) the timezone clears both interval and display; the
interval period is the one-second constant. -/
theorem clock_timer_tracks_timezone :
    (∀ evs, clockInv (clockRun evs)) ∧
    (∀ s t now, t ≠ "" → clockStep s (ClockEvent.setTimezone (some t) now)
       = { tz := some t, timer := some t, cityTime := formatTime12 now }) ∧
    (∀ s t now, s.timer = some t →
       (clockStep s (ClockEvent.tick now)).cityTime = formatTime12 now) ∧
    (∀ s now, clockStep s (ClockEvent.setTimezone none now)
       = { tz := none, timer := none, cityTime := "" }) ∧
    (∀ s now, clockStep s (ClockEvent.setTimezone (some "") now)
       = { tz := some "", timer := none, cityTime := "" }) ∧
    CLOCK_INTERVAL_MS = 1000 := by
  refine ⟨fun evs => clockRun_preserves evs clockInit clockInit_inv, ?_, ?_, ?_, ?_, rfl⟩
  · intro s t now ht
    simp [clockStep, ht]
  · intro s t now htm
    simp [clockStep, htm]
  · intro s now
    rfl
  · intro s now
    simp [clockStep]

/-- Witness for C9: a concrete activation followed by a tick, and the
immediate display computation for a concrete timezone. -/
theorem clock_timer_tracks_timezone_witness :
    clockInv (clockRun [ClockEvent.setTimezone (some "Europe/Paris") 3600,
      ClockEvent.tick 3601]) ∧
    ("Europe/Paris" ≠ "" ∧
     clockStep clockInit (ClockEvent.setTimezone (some "Europe/Paris") 3600)
       = { tz := some "Europe/Paris", timer := some "Europe/Paris",
           cityTime := formatTime12 3600 }) :=
  ⟨clock_timer_tracks_timezone.1 _,
   by decide,
   clock_timer_tracks_timezone.2.1 clockInit "Europe/Paris" 3600 (by decide)⟩

end WeatherApp
